import Mathlib

/-!
# Verification of TinyNTPClient

A shallow embedding of `src/src/TinyNTPClient.h` (class `TinyNTPClient`).
The target platform is Arduino (ILP32: `long` is a 32-bit signed integer,
`uint32_t` arithmetic wraps modulo 2^32, `uint64_t` modulo 2^64).  Machine
integers are modelled as `Nat` / `Int` with explicit reduction modulo the
word size at the points where the C code performs fixed-width arithmetic.

The network transport (`UDPAPI`) and the monotonic clock (`::millis()`) are
external collaborators: they are modelled as an explicit environment record
containing the sequence of readings and transport observations that one call
to `ntpExchange` consumes.
-/

/-- 2^32, the modulus of `uint32_t` arithmetic. -/
def u32 : Nat := 4294967296

/-- 2^64, the modulus of `uint64_t` arithmetic. -/
def u64 : Nat := 18446744073709551616

/-- Seconds between the 1900 NTP epoch and the 1970 Unix epoch
(`2208988800UL` in the source). -/
def ntpEpochDelta : Nat := 2208988800

/-- Reinterpret an integer as a 32-bit signed value (two's complement),
modelling the ILP32 cast `(long)x` applied to a `uint32_t` expression. -/
def asI32 (i : Int) : Int :=
  if i % 4294967296 < 2147483648 then i % 4294967296
  else i % 4294967296 - 4294967296

/-- `swap32` from the source: byte-swap a 32-bit value. -/
def swap32 (value : Nat) : Nat :=
  ((value &&& 0x000000FF) <<< 24) ||| ((value &&& 0x0000FF00) <<< 8) |||
  ((value &&& 0x00FF0000) >>> 8) ||| ((value &&& 0xFF000000) >>> 24)

/-- `l_htonl`: host to network byte order.  `le` is the result of
`isLittleEndian()`, a compile-time property of the host. -/
def l_htonl (le : Bool) (hostlong : Nat) : Nat :=
  if le then swap32 hostlong else hostlong

/-- `l_ntohl`: network to host byte order. -/
def l_ntohl (le : Bool) (netlong : Nat) : Nat :=
  if le then swap32 netlong else netlong

/-- The 48-byte NTP packet (struct `NTPPacket`).  Each field holds the raw
`uint32_t`/`uint8_t` value as stored in the struct (i.e. before any
`l_ntohl` conversion for inbound packets). -/
structure NTPPacket where
  li_vn_mode : Nat := 0
  stratum : Nat := 0
  poll : Nat := 0
  precision : Nat := 0
  rootDelay : Nat := 0
  rootDispersion : Nat := 0
  refId : Nat := 0
  refTm_s : Nat := 0
  refTm_f : Nat := 0
  origTm_s : Nat := 0
  origTm_f : Nat := 0
  rxTm_s : Nat := 0
  rxTm_f : Nat := 0
  txTm_s : Nat := 0
  txTm_f : Nat := 0
  deriving DecidableEq, Repr

/-- The persistent state of a `TinyNTPClient` instance (the fields that the
claims are about; `_server`, `_port` and the UDP object are external). -/
structure ClientState where
  /-- `_timeOffsetSeconds` (C `long`, ILP32: 32-bit signed). -/
  timeOffsetSeconds : Int
  /-- `_lastNtpTime` (`uint32_t`, seconds since the Unix epoch). -/
  lastNtpTime : Nat
  /-- `_lastUpdateMillis` (`uint32_t`, `::millis()` at the last update;
  `0` doubles as the "never updated" sentinel). -/
  lastUpdateMillis : Nat
  /-- `_timeoutMs` (`uint32_t`). -/
  timeoutMs : Nat
  deriving DecidableEq, Repr

/-- State after the constructor `TinyNTPClient(server, port, timeoutMs)`:
member initializers set `_timeOffsetSeconds`, `_lastNtpTime` and
`_lastUpdateMillis` to zero. -/
def initClient (timeoutMs : Nat) : ClientState :=
  { timeOffsetSeconds := 0, lastNtpTime := 0, lastUpdateMillis := 0,
    timeoutMs := timeoutMs % u32 }

/-- `end()`: reset the client state (the `_udp.stop()` call only touches the
external transport). -/
def endClient (s : ClientState) : ClientState :=
  { timeOffsetSeconds := 0, lastNtpTime := 0, lastUpdateMillis := 0,
    timeoutMs := s.timeoutMs }

/-- `setTimeOffsetSeconds(long offset)`. -/
def setTimeOffsetSeconds (offset : Int) (s : ClientState) : ClientState :=
  { s with timeOffsetSeconds := asI32 offset }

/-- `setTimeOffsetHours(long hours)`: stores `hours * 3600` (32-bit `long`
multiplication). -/
def setTimeOffsetHours (hours : Int) (s : ClientState) : ClientState :=
  { s with timeOffsetSeconds := asI32 (asI32 hours * 3600) }

/-- The local `ms_since_update = ::millis() - _lastUpdateMillis` of
`getTimeMs`: `uint32_t` subtraction, wrapping modulo 2^32.  `cur` is the
current `::millis()` reading. -/
def msSinceUpdate (cur : Nat) (s : ClientState) : Nat :=
  ((cur % u32 + u32) - s.lastUpdateMillis % u32) % u32

/-- The `static_cast<uint64_t>(_timeOffsetSeconds) * 1000ULL` term of
`getTimeMs`: the `long` is converted to `uint64_t` (reduction mod 2^64),
then multiplied in `uint64_t`. -/
def offsetMsTerm (s : ClientState) : Nat :=
  ((s.timeOffsetSeconds % (u64 : Int)).toNat * 1000) % u64

/-- `getTimeMs()`: 0 when `_lastUpdateMillis == 0` (never updated),
otherwise `_lastNtpTime * 1000 + ms_since_update + _timeOffsetSeconds * 1000`
computed in `uint64_t`.  `cur` is the `::millis()` reading the call makes. -/
def getTimeMs (cur : Nat) (s : ClientState) : Nat :=
  if s.lastUpdateMillis = 0 then 0
  else (s.lastNtpTime % u32 * 1000 + msSinceUpdate cur s + offsetMsTerm s) % u64

/-- `getTimeSec()`: `getTimeMs() / 1000` truncated to `uint32_t`. -/
def getTimeSec (cur : Nat) (s : ClientState) : Nat :=
  (getTimeMs cur s / 1000) % u32

/-- `operator bool()`: `_lastUpdateMillis != 0`. -/
def hasAnchor (s : ClientState) : Bool :=
  s.lastUpdateMillis != 0

/-- The request packet built at the top of `ntpExchange`: zero-initialised,
then `li_vn_mode = 0xDB`, `txTm_s = l_htonl(txTm_s)`, `txTm_f = 0`. -/
def requestPacket (le : Bool) (txTmS : Nat) : NTPPacket :=
  { li_vn_mode := 0xDB
    stratum := 0
    poll := 0
    precision := 0
    rootDelay := 0
    rootDispersion := 0
    refId := 0
    refTm_s := 0
    refTm_f := 0
    origTm_s := 0
    origTm_f := 0
    rxTm_s := 0
    rxTm_f := 0
    txTm_s := l_htonl le (txTmS % u32)
    txTm_f := 0 }

/-- One observation of the wait loop
`while ((packetSize = _udp.parsePacket()) == 0) { if (::millis() > timeout_ms) ... }`:
the `parsePacket()` result, and the `::millis()` reading taken if that
result was 0. -/
abbrev PollObs := Nat × Nat

/-- The wait loop of `ntpExchange`.  Returns `some (some sz)` when a poll
reports a nonzero packet size `sz`, `some none` when a `::millis()` reading
strictly exceeds the (wrapped) deadline, and `none` when the observation
list is exhausted with the loop still spinning (the real loop would keep
polling; such an environment is undetermined). -/
def pollLoop (deadline : Nat) : List PollObs → Option (Option Nat)
  | [] => none
  | (sz, m) :: rest =>
    if sz ≠ 0 then some (some sz)
    else if m % u32 > deadline then some none
    else pollLoop deadline rest

/-- One observation of the read loop: the `_udp.available()` result checked
by the loop guard, and the return value of the `_udp.read` call made if the
guard passed. -/
abbrev ReadObs := Bool × Int

/-- The read loop of `ntpExchange`:
`while (totalRead < 48 && _udp.available()) { bytesRead = _udp.read(...);
if (bytesRead > 0) totalRead += bytesRead; else break; }`.
An exhausted observation list models `available()` returning false from
then on. -/
def readLoop (total : Nat) : List ReadObs → Nat
  | [] => total
  | (avail, r) :: rest =>
    if total < 48 ∧ avail = true then
      if r > 0 then readLoop (total + r.toNat) rest else total
    else total

/-- The clock-offset computation of `ntpExchange` (lines 282-283):
`((long)(receive - originate) + (long)(transmit - t3_ntp)) / 2`.
The inner subtractions wrap in `uint32_t` and are then cast to the 32-bit
`long`; the `long` addition wraps (two's complement); `/` is C signed
division, truncating toward zero. -/
def clockOffset (originate receive transmit t3ntp : Nat) : Int :=
  (asI32 (asI32 ((receive : Int) - originate) +
          asI32 ((transmit : Int) - t3ntp))).tdiv 2

/-- The environment one call to `ntpExchange` consumes: the `::millis()`
reading used for the deadline (taken just after the send), the wait-loop
observations, the `::millis()` reading `t3_millis` taken on loop exit, the
read-loop observations, the content of the received datagram (raw wire
fields, network byte order as stored), and the `::millis()` reading made by
the inner `getTimeSec()` call of the offset branch. -/
structure ExchangeEnv where
  sendTick : Nat
  polls : List PollObs
  t3Millis : Nat
  reads : List ReadObs
  resp : NTPPacket
  calcMillis : Nat
  deriving Repr

/-- `ntpExchange(uint32_t txTm_s)`: send a request (see `requestPacket`),
wait for a reply with timeout, read 48 bytes, and update
`_lastNtpTime` / `_lastUpdateMillis`.  Returns the C `bool` result paired
with the state after the call; every failure path returns the state
unchanged.  Environments on which the real loop would never exit
(`pollLoop` = `none`) are mapped to failure; theorems about the wait loop
restrict to determined environments. -/
def ntpExchange (le : Bool) (txTmS : Nat) (env : ExchangeEnv)
    (s : ClientState) : Bool × ClientState :=
  let deadline := (env.sendTick % u32 + s.timeoutMs % u32) % u32
  match pollLoop deadline env.polls with
  | none => (false, s)
  | some none => (false, s)
  | some (some packetSize) =>
    if packetSize < 48 then (false, s)
    else
      let totalRead := readLoop 0 env.reads
      if totalRead < 48 then (false, s)
      else if txTmS % u32 ≠ 0 then
        let originate := l_ntohl le env.resp.origTm_s
        let receive := l_ntohl le env.resp.rxTm_s
        let transmit := l_ntohl le env.resp.txTm_s
        let t3unix := getTimeSec env.calcMillis s
        let t3ntp := (t3unix + ntpEpochDelta) % u32
        let offset := clockOffset originate receive transmit t3ntp
        let newTime := ((((transmit : Int) - ntpEpochDelta + offset) % (u32 : Int)).toNat)
        (true, { s with lastNtpTime := newTime,
                        lastUpdateMillis := env.t3Millis % u32 })
      else
        let transmit := l_ntohl le env.resp.txTm_s
        let newTime := ((transmit % u32 + u32) - ntpEpochDelta) % u32
        (true, { s with lastNtpTime := newTime,
                        lastUpdateMillis := env.t3Millis % u32 })

/-- `updateWithoutRTC()`: `ntpExchange(0)`. -/
def updateWithoutRTC (le : Bool) (env : ExchangeEnv) (s : ClientState) :
    Bool × ClientState :=
  ntpExchange le 0 env s

/-- `updateWithRTC()`: `ntpExchange(getTimeSec() + 2208988800UL)`.
`pre` is the `::millis()` reading made by this `getTimeSec()` call. -/
def updateWithRTC (le : Bool) (pre : Nat) (env : ExchangeEnv)
    (s : ClientState) : Bool × ClientState :=
  ntpExchange le ((getTimeSec pre s + ntpEpochDelta) % u32) env s

/-- `update()`:
`(_lastUpdateMillis == 0) ? updateWithoutRTC() && updateWithRTC() : updateWithRTC()`
with C short-circuit `&&`.  `env1` is the environment of the bootstrap
exchange (consumed only on the no-anchor path); `pre2`/`env2` belong to the
offset-correcting exchange. -/
def update (le : Bool) (env1 : ExchangeEnv) (pre2 : Nat) (env2 : ExchangeEnv)
    (s : ClientState) : Bool × ClientState :=
  if s.lastUpdateMillis = 0 then
    match updateWithoutRTC le env1 s with
    | (true, s1) => updateWithRTC le pre2 env2 s1
    | (false, s1) => (false, s1)
  else updateWithRTC le pre2 env2 s

/-- `begin()`: `end(); return update();`. -/
def beginClient (le : Bool) (env1 : ExchangeEnv) (pre2 : Nat)
    (env2 : ExchangeEnv) (s : ClientState) : Bool × ClientState :=
  update le env1 pre2 env2 (endClient s)

/-! ## Helper lemmas -/

/-- Reinterpreting as a 32-bit signed value is the identity on the
representable range. -/
theorem asI32_eq_self (i : Int) (h1 : -2147483648 ≤ i) (h2 : i < 2147483648) :
    asI32 i = i := by
  unfold asI32
  split <;> omega

/-- When all intermediate quantities fit in a 32-bit signed integer, the
source's offset computation agrees with the mathematical NTP formula
`((T2 - T1) + (T3 - T4)) / 2` (C division truncates toward zero). -/
theorem clockOffset_eq (T1 T2 T3 T4 : Nat)
    (h1 : -2147483648 ≤ (T2 : Int) - T1) (h2 : (T2 : Int) - T1 < 2147483648)
    (h3 : -2147483648 ≤ (T3 : Int) - T4) (h4 : (T3 : Int) - T4 < 2147483648)
    (h5 : -2147483648 ≤ ((T2 : Int) - T1) + ((T3 : Int) - T4))
    (h6 : ((T2 : Int) - T1) + ((T3 : Int) - T4) < 2147483648) :
    clockOffset T1 T2 T3 T4 = (((T2 : Int) - T1) + ((T3 : Int) - T4)).tdiv 2 := by
  unfold clockOffset
  rw [asI32_eq_self _ h1 h2, asI32_eq_self _ h3 h4, asI32_eq_self _ h5 h6]

/-- Every run of `ntpExchange` either fails and returns the state unchanged,
or succeeds and rewrites `_lastNtpTime` and `_lastUpdateMillis` together. -/
theorem ntpExchange_cases (le : Bool) (tx : Nat) (env : ExchangeEnv)
    (s : ClientState) :
    ntpExchange le tx env s = (false, s) ∨
    ∃ v, ntpExchange le tx env s =
      (true, { s with lastNtpTime := v,
                      lastUpdateMillis := env.t3Millis % u32 }) := by
  simp only [ntpExchange]
  split
  · exact Or.inl rfl
  · exact Or.inl rfl
  · split
    · exact Or.inl rfl
    · split
      · exact Or.inl rfl
      · split
        · exact Or.inr ⟨_, rfl⟩
        · exact Or.inr ⟨_, rfl⟩

/-- A failing `ntpExchange` call is exactly `(false, s)`. -/
theorem ntpExchange_fail_eq (le : Bool) (tx : Nat) (env : ExchangeEnv)
    (s : ClientState) (h : (ntpExchange le tx env s).1 = false) :
    ntpExchange le tx env s = (false, s) := by
  rcases ntpExchange_cases le tx env s with hc | ⟨v, hc⟩
  · exact hc
  · rw [hc] at h
    simp at h

/-! ## Claims -/

/-- C1: in an offset-correcting exchange (request transmit seconds nonzero)
that receives a 48-byte reply, with `T1` the reply's originate seconds,
`T2` its receive seconds, `T3` its transmit seconds, and `T4` the client's
own current time estimate converted to NTP-epoch seconds, and provided the
signed differences and their sum fit in a 32-bit signed integer (the `long`
of the source), the new anchor is
`referenceEpochSeconds = T3 - 2208988800 + ((T2 - T1) + (T3 - T4)) / 2`
(stored in `uint32_t`), the fraction fields playing no role. -/
theorem c1_offset_exchange_formula (le : Bool) (tx : Nat) (env : ExchangeEnv)
    (s : ClientState)
    (htx : tx % u32 ≠ 0) (sz : Nat)
    (hpoll : pollLoop ((env.sendTick % u32 + s.timeoutMs % u32) % u32) env.polls
       = some (some sz))
    (hsz : 48 ≤ sz) (hread : 48 ≤ readLoop 0 env.reads)
    (T1 T2 T3 T4 : Nat)
    (hT1 : T1 = l_ntohl le env.resp.origTm_s)
    (hT2 : T2 = l_ntohl le env.resp.rxTm_s)
    (hT3 : T3 = l_ntohl le env.resp.txTm_s)
    (hT4 : T4 = (getTimeSec env.calcMillis s + ntpEpochDelta) % u32)
    (h1 : -2147483648 ≤ (T2 : Int) - T1) (h2 : (T2 : Int) - T1 < 2147483648)
    (h3 : -2147483648 ≤ (T3 : Int) - T4) (h4 : (T3 : Int) - T4 < 2147483648)
    (h5 : -2147483648 ≤ ((T2 : Int) - T1) + ((T3 : Int) - T4))
    (h6 : ((T2 : Int) - T1) + ((T3 : Int) - T4) < 2147483648) :
    ntpExchange le tx env s =
      (true, { s with
        lastNtpTime := ((((T3 : Int) - ntpEpochDelta +
          (((T2 : Int) - T1) + ((T3 : Int) - T4)).tdiv 2) % (u32 : Int)).toNat),
        lastUpdateMillis := env.t3Millis % u32 }) := by
  subst hT1
  subst hT2
  subst hT3
  simp only [ntpExchange, hpoll]
  rw [if_neg (by omega), if_neg (by omega), if_pos htx, ← hT4]
  rw [clockOffset_eq _ _ _ _ h1 h2 h3 h4 h5 h6]

/-- State used to instantiate C1: its current estimate is 2085979497 s
(Unix), i.e. NTP second 1001. -/
def c1State : ClientState :=
  { timeOffsetSeconds := 0, lastNtpTime := 2085979497, lastUpdateMillis := 7,
    timeoutMs := 6000 }

/-- Environment used to instantiate C1: a 48-byte reply with
originate = 1000, receive = 1005, transmit = 1006 (big-endian host, so the
stored fields need no byte swap). -/
def c1Env : ExchangeEnv :=
  { sendTick := 3, polls := [(48, 3)], t3Millis := 9,
    reads := [(true, 48)],
    resp := { origTm_s := 1000, rxTm_s := 1005, txTm_s := 1006 },
    calcMillis := 7 }

/-- C1 witness: at T1 = 1000, T2 = 1005, T3 = 1006, T4 = 1001 the offset is
`((1005 - 1000) + (1006 - 1001)) / 2 = 5` and the new anchor is NTP second
1006 - 2208988800 + 5, i.e. Unix second 2085979507. -/
theorem c1_offset_exchange_witness :
    clockOffset 1000 1005 1006 1001 = 5 ∧
    ntpExchange false 42 c1Env c1State =
      (true, { timeOffsetSeconds := 0, lastNtpTime := 2085979507,
               lastUpdateMillis := 9, timeoutMs := 6000 }) := by
  constructor
  · decide
  · have h := c1_offset_exchange_formula false 42 c1Env c1State (by decide) 48
      (by decide) (by decide) (by decide) 1000 1005 1006 1001
      (by decide) (by decide) (by decide) (by decide)
      (by decide) (by decide) (by decide) (by decide) (by decide) (by decide)
    exact h.trans (by decide)

/-- C5: an exchange that fails - by timeout, undersized datagram,
incomplete read, or an exhausted (transport-failure) environment - leaves
the anchor state exactly as it was, and a successful exchange replaces
`_lastNtpTime` and `_lastUpdateMillis` together. -/
theorem c5_exchange_atomic (le : Bool) (tx : Nat) (env : ExchangeEnv)
    (s : ClientState) :
    ((ntpExchange le tx env s).1 = false → (ntpExchange le tx env s).2 = s) ∧
    ((ntpExchange le tx env s).1 = true →
      ∃ v, ntpExchange le tx env s =
        (true, { s with lastNtpTime := v,
                        lastUpdateMillis := env.t3Millis % u32 })) := by
  constructor
  · intro h
    rw [ntpExchange_fail_eq le tx env s h]
  · intro h
    rcases ntpExchange_cases le tx env s with hc | ⟨v, hc⟩
    · rw [hc] at h
      simp at h
    · exact ⟨v, hc⟩

/-- Environment whose transport never delivers a datagram within the
timeout window (polls return 0 until a reading past the deadline). -/
def c5FailEnv : ExchangeEnv :=
  { sendTick := 100, polls := [(0, 2000), (0, 6101)], t3Millis := 0,
    reads := [], resp := {}, calcMillis := 0 }

/-- C5 witness: a timed-out exchange on an anchored client returns failure
with the state untouched, and a successful exchange on the same client
rewrites both anchor fields together. -/
theorem c5_exchange_atomic_witness :
    ((ntpExchange false 0 c5FailEnv c1State).1 = false ∧
      (ntpExchange false 0 c5FailEnv c1State).2 = c1State) ∧
    ((ntpExchange false 0 c1Env c1State).1 = true ∧
      ∃ v, ntpExchange false 0 c1Env c1State =
        (true, { c1State with lastNtpTime := v,
                              lastUpdateMillis := c1Env.t3Millis % u32 })) := by
  constructor
  · exact ⟨by decide, (c5_exchange_atomic false 0 c5FailEnv c1State).1 (by decide)⟩
  · exact ⟨by decide, (c5_exchange_atomic false 0 c1Env c1State).2 (by decide)⟩

/-- C2: `getTimeMs` returns 0 when no sync has ever succeeded (fresh
client, or any state whose `_lastUpdateMillis` sentinel is still 0), and
otherwise - whenever the mathematical value fits in the `uint64_t` result -
returns `_lastNtpTime * 1000 + elapsedTicks + _timeOffsetSeconds * 1000`,
with `elapsedTicks` the wrapped milliseconds since the anchor was
installed.  The function is a pure computation over the state and one
monotonic reading: its model takes no transport environment at all. -/
theorem c2_getTimeMs_formula :
    (∀ t cur, getTimeMs cur (initClient t) = 0) ∧
    (∀ (s : ClientState) (cur : Nat), s.lastUpdateMillis = 0 →
      getTimeMs cur s = 0) ∧
    (∀ (s : ClientState) (cur : Nat),
      s.lastUpdateMillis ≠ 0 → s.lastNtpTime < u32 →
      0 ≤ (s.lastNtpTime : Int) * 1000 + (msSinceUpdate cur s : Int) +
        s.timeOffsetSeconds * 1000 →
      (s.lastNtpTime : Int) * 1000 + (msSinceUpdate cur s : Int) +
        s.timeOffsetSeconds * 1000 < (u64 : Int) →
      (getTimeMs cur s : Int) =
        (s.lastNtpTime : Int) * 1000 + (msSinceUpdate cur s : Int) +
        s.timeOffsetSeconds * 1000) := by
  refine ⟨?_, ?_, ?_⟩
  · intro t cur
    simp [getTimeMs, initClient]
  · intro s cur h
    simp [getTimeMs, h]
  · intro s cur h hn hlo hhi
    unfold getTimeMs offsetMsTerm
    rw [if_neg h, Nat.mod_eq_of_lt hn]
    have ho : (((s.timeOffsetSeconds % (u64 : Int)).toNat : Int)) =
        s.timeOffsetSeconds % (u64 : Int) :=
      Int.toNat_of_nonneg (Int.emod_nonneg _ (by simp [u64]))
    push_cast [ho]
    unfold u64 at *
    omega

/-- State used to instantiate C2: anchored at tick 5, reference second
1000, configured offset -2 s. -/
def c2State : ClientState :=
  { timeOffsetSeconds := -2, lastNtpTime := 1000, lastUpdateMillis := 5,
    timeoutMs := 6000 }

/-- C2 witness: a fresh client reports 0; an anchored client queried 100 ms
after the anchor reports `1000 * 1000 + 100 + (-2) * 1000 = 998100` ms. -/
theorem c2_getTimeMs_formula_witness :
    getTimeMs 105 (initClient 6000) = 0 ∧
    (getTimeMs 105 c2State : Int) = 998100 := by
  constructor
  · exact c2_getTimeMs_formula.1 6000 105
  · have h := c2_getTimeMs_formula.2.2 c2State 105 (by decide) (by decide)
      (by decide) (by decide)
    exact h.trans (by decide)

/-- C6: the elapsed-milliseconds quantity used by the get-time operations
is computed by fixed-width unsigned subtraction: whenever the current
reading is the reference tick advanced by `delta < 2^32` (wrapping modulo
2^32, so in particular when the counter rolls over), the computed elapsed
time is exactly `delta`, and `getTimeMs` uses exactly that quantity. -/
theorem c6_elapsed_wraparound (s : ClientState) (cur delta : Nat)
    (href : s.lastUpdateMillis < u32) (hd : delta < u32)
    (hcur : cur = (s.lastUpdateMillis + delta) % u32) :
    msSinceUpdate cur s = delta ∧
    (s.lastUpdateMillis ≠ 0 →
      getTimeMs cur s =
        (s.lastNtpTime % u32 * 1000 + delta + offsetMsTerm s) % u64) := by
  have hm : msSinceUpdate cur s = delta := by
    unfold msSinceUpdate
    subst hcur
    unfold u32 at *
    omega
  refine ⟨hm, ?_⟩
  intro h
  unfold getTimeMs
  rw [if_neg h, hm]

/-- State used to instantiate C6: anchored 100 ms before the monotonic
counter rolls over. -/
def c6State : ClientState :=
  { timeOffsetSeconds := 0, lastNtpTime := 500, lastUpdateMillis := 4294967196,
    timeoutMs := 6000 }

/-- C6 witness: anchor tick 2^32 - 100, current tick 150 (the counter has
wrapped): the elapsed time is the small positive 250 ms, and `getTimeMs`
reports 500 * 1000 + 250 ms. -/
theorem c6_elapsed_wraparound_witness :
    msSinceUpdate 150 c6State = 250 ∧ getTimeMs 150 c6State = 500250 := by
  have h := c6_elapsed_wraparound c6State 150 250 (by decide) (by decide)
    (by decide)
  exact ⟨h.1, (h.2 (by decide)).trans (by decide)⟩

/-- C3: `update()` first performs a bootstrap exchange with transmit
seconds 0 when no anchor exists; if that fails, the call fails and the
state (with no anchor) is unchanged.  The offset-correcting exchange uses
transmit seconds `getTimeSec() + 2208988800`; if it fails after a
successful bootstrap, the call fails but the bootstrap anchor remains.
When an anchor already exists, only the offset-correcting exchange runs. -/
theorem c3_update_two_phase (le : Bool) (env1 : ExchangeEnv) (pre2 : Nat)
    (env2 : ExchangeEnv) (s : ClientState) :
    (updateWithoutRTC le env1 s = ntpExchange le 0 env1 s) ∧
    (updateWithRTC le pre2 env2 s =
      ntpExchange le ((getTimeSec pre2 s + ntpEpochDelta) % u32) env2 s) ∧
    (s.lastUpdateMillis = 0 →
      ((ntpExchange le 0 env1 s).1 = false →
        update le env1 pre2 env2 s = (false, s)) ∧
      (∀ s1, ntpExchange le 0 env1 s = (true, s1) →
        update le env1 pre2 env2 s = updateWithRTC le pre2 env2 s1 ∧
        ((updateWithRTC le pre2 env2 s1).1 = false →
          update le env1 pre2 env2 s = (false, s1)))) ∧
    (s.lastUpdateMillis ≠ 0 →
      update le env1 pre2 env2 s = updateWithRTC le pre2 env2 s) := by
  refine ⟨rfl, rfl, ?_, ?_⟩
  · intro hz
    constructor
    · intro hf
      have hc := ntpExchange_fail_eq le 0 env1 s hf
      simp [update, updateWithoutRTC, hz, hc]
    · intro s1 h1
      constructor
      · simp [update, updateWithoutRTC, hz, h1]
      · intro hf
        have h2 : updateWithRTC le pre2 env2 s1 = (false, s1) :=
          ntpExchange_fail_eq _ _ _ _ hf
        simp [update, updateWithoutRTC, hz, h1, h2]
  · intro hnz
    simp [update, hnz]

/-- Environment used to instantiate C3's bootstrap phase: a 48-byte reply
with transmit seconds 2208988805 (NTP), received at tick 11, which installs
the anchor (Unix second 5, tick 11). -/
def c3BootEnv : ExchangeEnv :=
  { sendTick := 3, polls := [(48, 3)], t3Millis := 11,
    reads := [(true, 48)],
    resp := { txTm_s := 2208988805 }, calcMillis := 3 }

/-- C3 witness: on a fresh client a failed bootstrap fails the whole call
with no anchor installed; a successful bootstrap followed by a timed-out
offset exchange fails the call but keeps the bootstrap anchor; on an
anchored client only the offset-correcting exchange runs. -/
theorem c3_update_two_phase_witness :
    update false c5FailEnv 0 c1Env (initClient 6000) =
      (false, initClient 6000) ∧
    update false c3BootEnv 0 c5FailEnv (initClient 6000) =
      (false, { timeOffsetSeconds := 0, lastNtpTime := 5,
                lastUpdateMillis := 11, timeoutMs := 6000 }) ∧
    update false c5FailEnv 0 c1Env c1State = updateWithRTC false 0 c1Env c1State := by
  refine ⟨?_, ?_, ?_⟩
  · exact ((c3_update_two_phase false c5FailEnv 0 c1Env
      (initClient 6000)).2.2.1 (by decide)).1 (by decide)
  · have h := ((c3_update_two_phase false c3BootEnv 0 c5FailEnv
      (initClient 6000)).2.2.1 (by decide)).2
      { timeOffsetSeconds := 0, lastNtpTime := 5,
        lastUpdateMillis := 11, timeoutMs := 6000 } (by decide)
    exact h.2 (by decide)
  · exact (c3_update_two_phase false c5FailEnv 0 c1Env c1State).2.2.2
      (by decide)

/-- Environment exhibiting the timeout-deadline rollover: the request is
sent at monotonic tick 4294967295 (the counter maximum) with the default
6000 ms timeout, so the `uint32_t` deadline wraps to 5999; the transport
never reports a datagram, and the first poll's reading is taken in the same
millisecond as the send. -/
def c7RollEnv : ExchangeEnv :=
  { sendTick := 4294967295, polls := [(0, 4294967295)], t3Millis := 0,
    reads := [], resp := {}, calcMillis := 0 }

/-- C7: evaluation at the failing input.  With send tick 4294967295 and
timeout 6000 the deadline `::millis() + _timeoutMs` wraps to 5999, so the
very first poll reading (elapsed time 0 ms since the send) already
satisfies `::millis() > timeout_ms` and the exchange fails immediately
rather than after approximately 6000 ms; the pre-existing anchor is left
unchanged. -/
theorem c7_timeout_rollover :
    ntpExchange false 0 c7RollEnv c1State = (false, c1State) ∧
    pollLoop ((4294967295 + 6000) % u32) [(0, 4294967295)] = some none ∧
    ((4294967295 % u32 + u32) - 4294967295 % u32) % u32 = 0 := by
  decide

/-- C8: given a delivered datagram, a declared size below 48 bytes fails
the exchange and leaves the state unchanged; so does accumulating fewer
than 48 bytes across the partial reads; and a declared size of exactly 48
bytes whose reads deliver 48 bytes is accepted regardless of the reply's
field values (the response content is universally quantified and never
inspected before acceptance). -/
theorem c8_reply_sizing (le : Bool) (tx : Nat) (env : ExchangeEnv)
    (s : ClientState) (sz : Nat)
    (hpoll : pollLoop ((env.sendTick % u32 + s.timeoutMs % u32) % u32) env.polls
       = some (some sz)) :
    (sz < 48 → ntpExchange le tx env s = (false, s)) ∧
    (48 ≤ sz → readLoop 0 env.reads < 48 → ntpExchange le tx env s = (false, s)) ∧
    (sz = 48 → 48 ≤ readLoop 0 env.reads → (ntpExchange le tx env s).1 = true) := by
  refine ⟨?_, ?_, ?_⟩
  · intro h
    simp only [ntpExchange, hpoll]
    rw [if_pos h]
  · intro h hr
    simp only [ntpExchange, hpoll]
    rw [if_neg (by omega), if_pos hr]
  · intro h hr
    simp only [ntpExchange, hpoll]
    rw [if_neg (by omega), if_neg (by omega)]
    split <;> rfl

/-- Environment whose reply datagram declares only 40 bytes. -/
def c8ShortEnv : ExchangeEnv :=
  { sendTick := 3, polls := [(40, 3)], t3Millis := 9,
    reads := [(true, 40)], resp := {}, calcMillis := 7 }

/-- Environment whose 48-byte datagram yields only 10 bytes before the
transport reports no more data. -/
def c8PartialEnv : ExchangeEnv :=
  { sendTick := 3, polls := [(48, 3)], t3Millis := 9,
    reads := [(true, 10)], resp := {}, calcMillis := 7 }

/-- C8 witness: a 40-byte datagram fails, a 48-byte datagram read only up
to 10 bytes fails, and a full 48-byte reply (here with arbitrary,
implausible field values) is accepted. -/
theorem c8_reply_sizing_witness :
    ntpExchange false 0 c8ShortEnv c1State = (false, c1State) ∧
    ntpExchange false 0 c8PartialEnv c1State = (false, c1State) ∧
    (ntpExchange false 0 c1Env c1State).1 = true := by
  refine ⟨?_, ?_, ?_⟩
  · exact (c8_reply_sizing false 0 c8ShortEnv c1State 40 (by decide)).1
      (by decide)
  · exact (c8_reply_sizing false 0 c8PartialEnv c1State 48 (by decide)).2.1
      (by decide) (by decide)
  · exact (c8_reply_sizing false 0 c1Env c1State 48 (by decide)).2.2
      (by decide) (by decide)

/-- Environment of a successful bootstrap exchange whose receive tick
`t3_millis` is 0 (a sync completing in the very millisecond the monotonic
counter reads 0, e.g. right at device boot or at counter rollover). -/
def c9Env : ExchangeEnv :=
  { sendTick := 5, polls := [(48, 5)], t3Millis := 0,
    reads := [(true, 48)],
    resp := { txTm_s := 3405691582 }, calcMillis := 5 }

/-- C9 counterexample: a sync that succeeds at monotonic reading 0 leaves
the client reporting that it has NOT synchronized - the exchange returns
true yet `operator bool()` is false afterwards, because the "no anchor"
sentinel `_lastUpdateMillis == 0` is not distinguishable from a legitimate
zero tick reading. -/
theorem c9_zero_tick_counterexample :
    (ntpExchange false 0 c9Env (initClient 6000)).1 = true ∧
    hasAnchor (ntpExchange false 0 c9Env (initClient 6000)).2 = false := by
  decide

/-- C9 amended: the validity indicator is true exactly when the stored
`_lastUpdateMillis` is nonzero; consequently, after any successful
exchange, it reports synchronized if and only if the receive tick
`t3_millis` was nonzero modulo 2^32 - a success at tick 0 reports
unsynchronized. -/
theorem c9_anchor_indicator (le : Bool) (tx : Nat) (env : ExchangeEnv)
    (s : ClientState) :
    (hasAnchor s = true ↔ s.lastUpdateMillis ≠ 0) ∧
    ((ntpExchange le tx env s).1 = true →
      (hasAnchor (ntpExchange le tx env s).2 = true ↔
        env.t3Millis % u32 ≠ 0)) := by
  constructor
  · simp [hasAnchor]
  · intro h
    rcases ntpExchange_cases le tx env s with hc | ⟨v, hc⟩
    · rw [hc] at h
      simp at h
    · rw [hc]
      simp [hasAnchor]

/-- C9 witness: instantiating the amended claim at the zero-tick success
environment. -/
theorem c9_anchor_indicator_witness :
    (ntpExchange false 0 c9Env (initClient 6000)).1 = true ∧
    (hasAnchor (ntpExchange false 0 c9Env (initClient 6000)).2 = true ↔
      c9Env.t3Millis % u32 ≠ 0) :=
  ⟨by decide,
   (c9_anchor_indicator false 0 c9Env (initClient 6000)).2 (by decide)⟩

/-- C10: `end()` - which `begin()` invokes first - resets the
user-configured timezone offset to 0 along with both anchor fields, so any
offset previously set through `setTimeOffsetSeconds` or
`setTimeOffsetHours` is discarded, the client reports unsynchronized, and
`getTimeMs()` returns 0. -/
theorem c10_end_resets (s : ClientState) (v h : Int) (cur : Nat) (le : Bool)
    (env1 : ExchangeEnv) (pre2 : Nat) (env2 : ExchangeEnv) :
    endClient s = { timeOffsetSeconds := 0, lastNtpTime := 0,
                    lastUpdateMillis := 0, timeoutMs := s.timeoutMs } ∧
    (endClient (setTimeOffsetSeconds v s)).timeOffsetSeconds = 0 ∧
    (endClient (setTimeOffsetHours h s)).timeOffsetSeconds = 0 ∧
    getTimeMs cur (endClient s) = 0 ∧
    hasAnchor (endClient s) = false ∧
    beginClient le env1 pre2 env2 s = update le env1 pre2 env2 (endClient s) := by
  refine ⟨rfl, rfl, rfl, ?_, rfl, rfl⟩
  simp [getTimeMs, endClient]

/-- C4 counterexample: the leap-indicator field of the outbound request is
3, not 0 - the source sets the flags byte to `0xDB`, whose top two bits
(the LI field) are `11`, i.e. "clock unsynchronized", not "no warning". -/
theorem c4_leap_indicator_counterexample :
    (requestPacket false 0).li_vn_mode / 64 = 3 ∧
    (requestPacket false 0).li_vn_mode / 64 ≠ 0 := by
  decide

/-- C4 amended: for every transmit-seconds value the outbound request's
flags byte is `0xDB`, encoding leap indicator = 3 (clock unsynchronized),
version = 3, mode = 3 (client); the transmit seconds field is the value in
network byte order, the transmit fraction is 0, and every other field of
the packet is zero. -/
theorem c4_request_packet (le : Bool) (tx : Nat) :
    (requestPacket le tx).li_vn_mode = 0xDB ∧
    (requestPacket le tx).li_vn_mode / 64 = 3 ∧
    (requestPacket le tx).li_vn_mode / 8 % 8 = 3 ∧
    (requestPacket le tx).li_vn_mode % 8 = 3 ∧
    (requestPacket le tx).txTm_s = l_htonl le (tx % u32) ∧
    (requestPacket le tx).txTm_f = 0 ∧
    (requestPacket le tx).stratum = 0 ∧
    (requestPacket le tx).poll = 0 ∧
    (requestPacket le tx).precision = 0 ∧
    (requestPacket le tx).rootDelay = 0 ∧
    (requestPacket le tx).rootDispersion = 0 ∧
    (requestPacket le tx).refId = 0 ∧
    (requestPacket le tx).refTm_s = 0 ∧
    (requestPacket le tx).refTm_f = 0 ∧
    (requestPacket le tx).origTm_s = 0 ∧
    (requestPacket le tx).origTm_f = 0 ∧
    (requestPacket le tx).rxTm_s = 0 ∧
    (requestPacket le tx).rxTm_f = 0 := by
  exact ⟨rfl, show (219 : Nat) / 64 = 3 by decide,
    show (219 : Nat) / 8 % 8 = 3 by decide, show (219 : Nat) % 8 = 3 by decide,
    rfl, rfl, rfl, rfl, rfl, rfl, rfl, rfl, rfl, rfl, rfl, rfl, rfl, rfl⟩
